import Mathlib

/-!
Verification of the simple-bank money-transfer core.

The development shallowly embeds:
  * the `Queries` store operations used by the transfer transaction
    (the sqlc-generated query code is not part of the source tree, so these
    are modelled from the specification's interface section);
  * `execTx` (the transaction executor) and `TransferTx` (the transfer
    orchestrator) from `db/sqlc/store.go`;
  * the API handler `createTransfer` and `validateAccountTransfer` from
    `api/transfer.go`.

Database state is a finite map from account ids to rows plus append-only
entry and transfer tables.  A run of a transaction additionally records the
trace of store operations it performed, so that ordering properties
(lock-acquisition order, operation order) can be stated.
-/

namespace SimpleBank

/-- An account row: `accounts(id, owner, currency, balance, created_at)`. -/
structure Account where
  id : Int
  owner : String
  currency : String
  balance : Int
  createdAt : Int
deriving DecidableEq, Repr

/-- An entry row: `entries(id, account_id, amount, created_at)`. -/
structure Entry where
  id : Int
  accountId : Int
  amount : Int
  createdAt : Int
deriving DecidableEq, Repr

/-- A transfer row: `transfers(id, from_account_id, to_account_id, amount, created_at)`. -/
structure Transfer where
  id : Int
  fromAccountId : Int
  toAccountId : Int
  amount : Int
  createdAt : Int
deriving DecidableEq, Repr

/-- Store-level errors: `notFound` models `sql.ErrNoRows`; `other` models any
other storage failure (e.g. `sql.ErrTxDone`). -/
inductive DBErr where
  | notFound
  | other
deriving DecidableEq, Repr

/-- The persisted database state. -/
structure DB where
  accounts : Int → Option Account
  entries : List Entry
  transfers : List Transfer
  nextEntryId : Int
  nextTransferId : Int
  clock : Int

/-- One store operation, as recorded in a run's trace. -/
inductive Op where
  | createTransfer (fromAccountId toAccountId amount : Int)
  | createEntry (accountId amount : Int)
  | getAccountForUpdate (id : Int)
  | updateAccount (id balance : Int)
deriving DecidableEq, Repr

/-- Transaction-scoped state: the in-flight database plus the trace of store
operations performed so far. -/
structure TxState where
  db : DB
  trace : List Op

/-- Parameters of `Queries.CreateTransfer`. -/
structure CreateTransferParams where
  fromAccountId : Int
  toAccountId : Int
  amount : Int
deriving DecidableEq, Repr

/-- Parameters of `Queries.CreateEntry`. -/
structure CreateEntryParams where
  accountId : Int
  amount : Int
deriving DecidableEq, Repr

/-- Parameters of `Queries.UpdateAccount`. -/
structure UpdateAccountParams where
  id : Int
  balance : Int
deriving DecidableEq, Repr

/-- Modelled from the spec: the plain read `GetAccount(accountID)` of the
Ledger Store (the sqlc-generated query code is absent from the source tree);
it returns the row, or NotFound (`sql.ErrNoRows`) when the id is absent. -/
def DB.getAccount (db : DB) (id : Int) : Except DBErr Account :=
  match db.accounts id with
  | some a => .ok a
  | none => .error .notFound

/-- Modelled from the spec: `CreateTransfer(from, to, amount) → Transfer`
(sqlc-generated query code absent from the source tree): inserts a transfer
row with an assigned identity and timestamp and returns it. -/
def CreateTransfer (s : TxState) (arg : CreateTransferParams) : Transfer × TxState :=
  let row : Transfer :=
    ⟨s.db.nextTransferId, arg.fromAccountId, arg.toAccountId, arg.amount, s.db.clock⟩
  (row,
    ⟨{ s.db with
        transfers := s.db.transfers ++ [row],
        nextTransferId := s.db.nextTransferId + 1 },
      s.trace ++ [.createTransfer arg.fromAccountId arg.toAccountId arg.amount]⟩)

/-- Modelled from the spec: `CreateEntry(accountID, amount) → Entry`
(sqlc-generated query code absent from the source tree): inserts an entry row
with an assigned identity and timestamp and returns it. -/
def CreateEntry (s : TxState) (arg : CreateEntryParams) : Entry × TxState :=
  let row : Entry := ⟨s.db.nextEntryId, arg.accountId, arg.amount, s.db.clock⟩
  (row,
    ⟨{ s.db with
        entries := s.db.entries ++ [row],
        nextEntryId := s.db.nextEntryId + 1 },
      s.trace ++ [.createEntry arg.accountId arg.amount]⟩)

/-- Modelled from the spec: `GetAccountForUpdate(accountID) → Account`, the
locking read (sqlc-generated query code absent from the source tree): returns
the current row, or NotFound when absent.  The pessimistic lock itself is a
concurrency device; in this sequential semantics the read returns the current
persisted row and its occurrence is recorded in the trace. -/
def GetAccountForUpdate (s : TxState) (id : Int) : Except DBErr Account × TxState :=
  (s.db.getAccount id, ⟨s.db, s.trace ++ [.getAccountForUpdate id]⟩)

/-- Modelled from the spec (and `TestUpdateAccount`):
`UpdateAccountBalance(accountID, newBalance) → Account` (sqlc-generated query
code absent from the source tree): sets only the balance of the named row,
leaving owner, currency and creation timestamp unchanged, and returns the
updated row; NotFound when the id is absent. -/
def UpdateAccount (s : TxState) (arg : UpdateAccountParams) : Except DBErr Account × TxState :=
  match s.db.accounts arg.id with
  | none => (.error .notFound, ⟨s.db, s.trace ++ [.updateAccount arg.id arg.balance]⟩)
  | some a =>
    let a' := { a with balance := arg.balance }
    (.ok a',
      ⟨{ s.db with accounts := fun i => if i = arg.id then some a' else s.db.accounts i },
        s.trace ++ [.updateAccount arg.id arg.balance]⟩)

/-- Parameters of `Store.TransferTx` (store.go lines 41-45). -/
structure TransferTxParams where
  fromAccountId : Int
  toAccountId : Int
  amount : Int
deriving DecidableEq, Repr

/-- Result of `Store.TransferTx` (store.go lines 47-53). -/
structure TransferTxResult where
  transfer : Transfer
  fromAccount : Account
  toAccount : Account
  fromEntry : Entry
  toEntry : Entry
deriving DecidableEq, Repr

/-- The outcome of running one transactional unit: the returned value or
error, the persisted database after commit or rollback, and the trace of
store operations the unit attempted. -/
structure TxRun (A : Type) where
  res : Except DBErr A
  db : DB
  trace : List Op

/-- `Store.execTx` (store.go lines 21-39), at the fault-free storage level:
begin always succeeds, the callback runs once on the transaction-local state,
a successful callback commits its state, a failing callback rolls back to the
original database (rollback and commit themselves succeeding).  The trace of
attempted operations is kept for observation even when rolled back.  The
executor's own failure plumbing is modelled separately by `execTxE`. -/
def execTx {A : Type} (db : DB) (callback : TxState → Except DBErr A × TxState) : TxRun A :=
  match callback ⟨db, []⟩ with
  | (.ok a, s) => ⟨.ok a, s.db, s.trace⟩
  | (.error e, s) => ⟨.error e, db, s.trace⟩

/-- The unit-of-work callback of `Store.TransferTx` (store.go lines 58-120),
translated statement by statement: create the transfer row, the debit entry
for the from-account with amount `-amount`, the credit entry for the
to-account with amount `+amount`, then lock-read and update the from-account,
then lock-read and update the to-account, each early `return err` becoming an
error branch. -/
def transferTxBody (arg : TransferTxParams) (s0 : TxState) :
    Except DBErr TransferTxResult × TxState :=
  let (transfer, s1) := CreateTransfer s0
    ⟨arg.fromAccountId, arg.toAccountId, arg.amount⟩
  let (fromEntry, s2) := CreateEntry s1 ⟨arg.fromAccountId, -arg.amount⟩
  let (toEntry, s3) := CreateEntry s2 ⟨arg.toAccountId, arg.amount⟩
  match GetAccountForUpdate s3 arg.fromAccountId with
  | (.error e, s4) => (.error e, s4)
  | (.ok originalFromAccount, s4) =>
    match UpdateAccount s4 ⟨arg.fromAccountId, originalFromAccount.balance - arg.amount⟩ with
    | (.error e, s5) => (.error e, s5)
    | (.ok fromAccount, s5) =>
      match GetAccountForUpdate s5 arg.toAccountId with
      | (.error e, s6) => (.error e, s6)
      | (.ok originalToAccount, s6) =>
        match UpdateAccount s6 ⟨originalToAccount.id, originalToAccount.balance + arg.amount⟩ with
        | (.error e, s7) => (.error e, s7)
        | (.ok toAccount, s7) =>
          (.ok ⟨transfer, fromAccount, toAccount, fromEntry, toEntry⟩, s7)

/-- `Store.TransferTx` (store.go lines 55-123): the transfer callback run
inside one `execTx` unit. -/
def TransferTx (db : DB) (arg : TransferTxParams) : TxRun TransferTxResult :=
  execTx db (transferTxBody arg)

/-- The account ids subjected to locking reads, in trace order. -/
def lockReads (trace : List Op) : List Int :=
  trace.filterMap fun op =>
    match op with
    | .getAccountForUpdate i => some i
    | _ => none

/-- Lifecycle events of one `execTx` invocation. -/
inductive TxEvent where
  | beganTx
  | invokedCallback
  | rolledBack
  | committed
deriving DecidableEq, Repr

/-- The error reported by `execTx`: either a single error passed through
unchanged (`plain` is the identity injection for begin, callback and commit
errors), or — when the callback failed and the rollback also failed — the
combined error built by `fmt.Errorf("Transaction error: %v, Rollback error:
%v", err, rbErr)`, which contains both. -/
inductive TxOutcomeErr (E : Type) where
  | plain (e : E)
  | txAndRollback (txErr rbErr : E)
deriving DecidableEq, Repr

/-- Outcomes of the storage primitives `BeginTx`, `Rollback` and `Commit`
for one `execTx` invocation (`none` = success). -/
structure TxHooks (E : Type) where
  beginTx : Option E
  rollback : Option E
  commit : Option E

/-- `Store.execTx` (store.go lines 21-39) at the level of its own control
flow, with the storage primitives' outcomes injected: a begin failure is
returned at once (no unit opened, callback not invoked); on a callback
failure a rollback is attempted, a failing rollback yielding the combined
error and a successful one returning the callback's error unchanged; on
callback success the commit's result is the overall result.  The second
component is the list of lifecycle events that occurred. -/
def execTxE {E A : Type} (hooks : TxHooks E) (callback : Unit → Except E A) :
    Except (TxOutcomeErr E) A × List TxEvent :=
  match hooks.beginTx with
  | some e => (.error (.plain e), [])
  | none =>
    match callback () with
    | .error err =>
      match hooks.rollback with
      | some rbErr => (.error (.txAndRollback err rbErr), [.beganTx, .invokedCallback, .rolledBack])
      | none => (.error (.plain err), [.beganTx, .invokedCallback, .rolledBack])
    | .ok a =>
      match hooks.commit with
      | some ce => (.error (.plain ce), [.beganTx, .invokedCallback, .committed])
      | none => (.ok a, [.beganTx, .invokedCallback, .committed])

/-- The body of a `POST /transfers` request (api/transfer.go lines 12-17),
with its binding constraints modelled by `validTransferRequest`. -/
structure CreateTransferRequest where
  fromAccountId : Int
  toAccountId : Int
  amount : Int
  currency : String
deriving DecidableEq, Repr

/-- The gin binding constraints of `createTransferRequest`:
`required,min=1` on both account ids, `required,gt=0` on the amount and
`required,oneof=USD EUR BRL` on the currency. -/
def validTransferRequest (req : CreateTransferRequest) : Bool :=
  decide (1 ≤ req.fromAccountId) && decide (1 ≤ req.toAccountId) &&
    decide (0 < req.amount) &&
    (req.currency == "USD" || req.currency == "EUR" || req.currency == "BRL")

/-- The store dependency injected into the API server: a plain read
`GetAccount` and the orchestrator `TransferTx`, over an abstract state `σ`
(the production instance is `realAPIStore`; tests substitute mocks). -/
structure APIStore (σ : Type) where
  getAccount : σ → Int → Except DBErr Account
  transferTx : σ → TransferTxParams → Except DBErr TransferTxResult × σ

/-- `Server.validateAccountTransfer` (api/transfer.go lines 54-74): reads the
account; NotFound responds 404, any other read failure responds 500, a
currency different from the request's responds 422; otherwise the account is
valid.  `some status` is the HTTP status written (the `false` return);
`none` is the `true` return. -/
def validateAccountTransfer {σ : Type} (store : APIStore σ) (s : σ)
    (accountID : Int) (currency : String) : Option Nat :=
  match store.getAccount s accountID with
  | .error .notFound => some 404
  | .error .other => some 500
  | .ok account => if account.currency ≠ currency then some 422 else none

/-- The observable outcome of one `createTransfer` request: the HTTP status
written (if any), the final store state, and whether `TransferTx` was
invoked. -/
structure HandlerRun (σ : Type) where
  response : Option Nat
  state : σ
  calledTransferTx : Bool
deriving Repr

/-- `Server.createTransfer` (api/transfer.go lines 19-52): bind the request
(400 on violation), validate both accounts against the request currency,
then run `TransferTx`.  Lines 43-49 of the source return from both error
branches without writing any response, which is mirrored here by
`response := none` on the error path; a success responds 201 with the
result. -/
def createTransfer {σ : Type} (store : APIStore σ) (s : σ)
    (req : CreateTransferRequest) : HandlerRun σ :=
  if validTransferRequest req = false then ⟨some 400, s, false⟩
  else
    match validateAccountTransfer store s req.fromAccountId req.currency with
    | some status => ⟨some status, s, false⟩
    | none =>
      match validateAccountTransfer store s req.toAccountId req.currency with
      | some status => ⟨some status, s, false⟩
      | none =>
        match store.transferTx s ⟨req.fromAccountId, req.toAccountId, req.amount⟩ with
        | (.error _e, s') => ⟨none, s', true⟩
        | (.ok _result, s') => ⟨some 201, s', true⟩

/-- The production store wired into the server: `GetAccount` and
`TransferTx` over the database model. -/
def realAPIStore : APIStore DB where
  getAccount := fun db id => db.getAccount id
  transferTx := fun db p => ((TransferTx db p).res, (TransferTx db p).db)

/-- A concrete account used by the example database. -/
def exAccount1 : Account := ⟨1, "ana", "BRL", 100, 5⟩

/-- A concrete account used by the example database. -/
def exAccount2 : Account := ⟨2, "bea", "BRL", 50, 5⟩

/-- A concrete database with two BRL accounts of balances 100 and 50. -/
def exDB : DB where
  accounts := fun i => if i = 1 then some exAccount1 else if i = 2 then some exAccount2 else none
  entries := []
  transfers := []
  nextEntryId := 1
  nextTransferId := 1
  clock := 7

/-- Table consistency: a row found under key `i` carries id `i` (the SQL
primary-key lookup invariant). -/
def DB.wf (db : DB) : Prop :=
  ∀ i a, db.accounts i = some a → a.id = i

/-- The example database is table-consistent. -/
theorem exDB_wf : exDB.wf := by
  intro i a h
  simp only [exDB] at h
  split at h
  next h1 =>
    injection h with h2
    subst h1
    rw [← h2]
    rfl
  next h1 =>
    split at h
    next h2 =>
      injection h with h3
      subst h2
      rw [← h3]
      rfl
    next h2 => exact Option.noConfusion h

/-- Full characterization of a transfer between two distinct existing
accounts: the returned result, the final account table (pointwise), the
appended entry and transfer rows and the operation trace. -/
theorem transferTx_run_ne {db : DB} {f t a : Int} {af bt : Account}
    (hne : f ≠ t) (hf : db.accounts f = some af) (ht : db.accounts t = some bt)
    (hbtid : bt.id = t) :
    (TransferTx db ⟨f, t, a⟩).res =
      .ok ⟨⟨db.nextTransferId, f, t, a, db.clock⟩,
        { af with balance := af.balance - a },
        { bt with balance := bt.balance + a },
        ⟨db.nextEntryId, f, -a, db.clock⟩,
        ⟨db.nextEntryId + 1, t, a, db.clock⟩⟩ ∧
    (∀ i, (TransferTx db ⟨f, t, a⟩).db.accounts i =
      if i = t then some { bt with balance := bt.balance + a }
      else if i = f then some { af with balance := af.balance - a }
      else db.accounts i) ∧
    (TransferTx db ⟨f, t, a⟩).db.entries =
      db.entries ++ [⟨db.nextEntryId, f, -a, db.clock⟩, ⟨db.nextEntryId + 1, t, a, db.clock⟩] ∧
    (TransferTx db ⟨f, t, a⟩).db.transfers =
      db.transfers ++ [⟨db.nextTransferId, f, t, a, db.clock⟩] ∧
    (TransferTx db ⟨f, t, a⟩).trace =
      [.createTransfer f t a, .createEntry f (-a), .createEntry t a,
       .getAccountForUpdate f, .updateAccount f (af.balance - a),
       .getAccountForUpdate t, .updateAccount t (bt.balance + a)] := by
  have hne' : t ≠ f := Ne.symm hne
  refine ⟨?_, ?_, ?_, ?_, ?_⟩ <;>
    simp [TransferTx, execTx, transferTxBody, CreateTransfer, CreateEntry,
      GetAccountForUpdate, UpdateAccount, DB.getAccount, hf, ht, hbtid, hne, hne']

/-- Full characterization of a self-transfer on an existing account: the
credit update reads the balance already debited inside the same unit, so the
final row equals the original but for `balance - a + a`. -/
theorem transferTx_run_self {db : DB} {f a : Int} {af : Account}
    (hf : db.accounts f = some af) (hafid : af.id = f) :
    (TransferTx db ⟨f, f, a⟩).res =
      .ok ⟨⟨db.nextTransferId, f, f, a, db.clock⟩,
        { af with balance := af.balance - a },
        { af with balance := af.balance - a + a },
        ⟨db.nextEntryId, f, -a, db.clock⟩,
        ⟨db.nextEntryId + 1, f, a, db.clock⟩⟩ ∧
    (∀ i, (TransferTx db ⟨f, f, a⟩).db.accounts i =
      if i = f then some { af with balance := af.balance - a + a }
      else db.accounts i) ∧
    (TransferTx db ⟨f, f, a⟩).db.entries =
      db.entries ++ [⟨db.nextEntryId, f, -a, db.clock⟩, ⟨db.nextEntryId + 1, f, a, db.clock⟩] ∧
    (TransferTx db ⟨f, f, a⟩).db.transfers =
      db.transfers ++ [⟨db.nextTransferId, f, f, a, db.clock⟩] ∧
    (TransferTx db ⟨f, f, a⟩).trace =
      [.createTransfer f f a, .createEntry f (-a), .createEntry f a,
       .getAccountForUpdate f, .updateAccount f (af.balance - a),
       .getAccountForUpdate f, .updateAccount f (af.balance - a + a)] := by
  refine ⟨?_, ?_, ?_, ?_, ?_⟩
  case refine_2 =>
    intro i
    by_cases hi : i = f <;>
      simp [TransferTx, execTx, transferTxBody, CreateTransfer, CreateEntry,
        GetAccountForUpdate, UpdateAccount, DB.getAccount, hf, hafid, hi]
  all_goals
    simp [TransferTx, execTx, transferTxBody, CreateTransfer, CreateEntry,
      GetAccountForUpdate, UpdateAccount, DB.getAccount, hf, hafid]

/-- A successful transfer implies both named accounts existed beforehand. -/
theorem transferTx_ok_inv {db : DB} {arg : TransferTxParams} {r : TransferTxResult}
    (h : (TransferTx db arg).res = .ok r) :
    ∃ af, db.accounts arg.fromAccountId = some af ∧
      ∃ bt, db.accounts arg.toAccountId = some bt := by
  rcases hfm : db.accounts arg.fromAccountId with _ | af
  · exfalso
    simp [TransferTx, execTx, transferTxBody, CreateTransfer, CreateEntry,
      GetAccountForUpdate, UpdateAccount, DB.getAccount, hfm] at h
  · rcases htm : db.accounts arg.toAccountId with _ | bt
    · exfalso
      by_cases hft : arg.toAccountId = arg.fromAccountId
      · rw [hft, hfm] at htm
        exact Option.noConfusion htm
      · simp [TransferTx, execTx, transferTxBody, CreateTransfer, CreateEntry,
          GetAccountForUpdate, UpdateAccount, DB.getAccount, hfm, htm, hft] at h
    · exact ⟨af, rfl, bt, rfl⟩

/-- An `execTx` unit whose result is an error leaves the database unchanged
(the unit is rolled back). -/
theorem execTx_error_db {A : Type} (db : DB) (cb : TxState → Except DBErr A × TxState)
    (e : DBErr) (h : (execTx db cb).res = .error e) : (execTx db cb).db = db := by
  unfold execTx at h ⊢
  rcases hcb : cb ⟨db, []⟩ with ⟨res, s⟩
  cases res <;> simp_all

/-- C1: the spec requires the locking reads to take the account with the
lower numeric identity first, regardless of transfer direction; the code of
`TransferTx` instead always lock-reads the from-account first: transferring
from account 2 to account 1 performs the locking reads in order [2, 1],
locking the higher identity first. -/
theorem transferTx_locks_from_account_first :
    lockReads (TransferTx exDB ⟨2, 1, 10⟩).trace = [2, 1] ∧ (1 : Int) < 2 := by
  constructor
  · rfl
  · decide

/-- C2: for distinct accounts and a positive amount, a successful transfer
debits the from-account by the amount, credits the to-account by the amount,
and returns entries of amounts `-amount`/`+amount`, the post-update accounts
and a transfer row carrying the amount. -/
theorem transferTx_balance_arithmetic (db : DB) (f t a : Int) (r : TransferTxResult)
    (hwf : db.wf) (hpos : 0 < a) (hne : f ≠ t)
    (hok : (TransferTx db ⟨f, t, a⟩).res = .ok r) :
    ∃ af bt, db.accounts f = some af ∧ db.accounts t = some bt ∧
      ((TransferTx db ⟨f, t, a⟩).db.accounts f).map Account.balance = some (af.balance - a) ∧
      ((TransferTx db ⟨f, t, a⟩).db.accounts t).map Account.balance = some (bt.balance + a) ∧
      r.fromEntry.amount = -a ∧ r.toEntry.amount = a ∧
      r.fromAccount.balance = af.balance - a ∧ r.toAccount.balance = bt.balance + a ∧
      r.transfer.amount = a := by
  obtain ⟨af, hf, bt, ht⟩ := transferTx_ok_inv hok
  have hbtid := hwf _ _ ht
  obtain ⟨hres, hacc, -, -, -⟩ := transferTx_run_ne hne hf ht hbtid
  rw [hok] at hres
  injection hres with hr
  subst hr
  refine ⟨af, bt, hf, ht, ?_, ?_, rfl, rfl, rfl, rfl, rfl⟩
  · rw [hacc f]
    simp [hne]
  · rw [hacc t]
    simp

/-- Witness for C2: the spec's concrete scenario — accounts of balances 100
and 50, transfer of 30 — yields balances 70 and 80 and entries -30/+30. -/
theorem transferTx_balance_arithmetic_witness :
    ∃ af bt, exDB.accounts 1 = some af ∧ exDB.accounts 2 = some bt ∧
      ((TransferTx exDB ⟨1, 2, 30⟩).db.accounts 1).map Account.balance = some (af.balance - 30) ∧
      ((TransferTx exDB ⟨1, 2, 30⟩).db.accounts 2).map Account.balance = some (bt.balance + 30) ∧
      (⟨⟨1, 1, 2, 30, 7⟩, ⟨1, "ana", "BRL", 70, 5⟩, ⟨2, "bea", "BRL", 80, 5⟩,
        ⟨1, 1, -30, 7⟩, ⟨2, 2, 30, 7⟩⟩ : TransferTxResult).fromEntry.amount = -30 ∧
      (⟨⟨1, 1, 2, 30, 7⟩, ⟨1, "ana", "BRL", 70, 5⟩, ⟨2, "bea", "BRL", 80, 5⟩,
        ⟨1, 1, -30, 7⟩, ⟨2, 2, 30, 7⟩⟩ : TransferTxResult).toEntry.amount = 30 ∧
      (⟨⟨1, 1, 2, 30, 7⟩, ⟨1, "ana", "BRL", 70, 5⟩, ⟨2, "bea", "BRL", 80, 5⟩,
        ⟨1, 1, -30, 7⟩, ⟨2, 2, 30, 7⟩⟩ : TransferTxResult).fromAccount.balance = af.balance - 30 ∧
      (⟨⟨1, 1, 2, 30, 7⟩, ⟨1, "ana", "BRL", 70, 5⟩, ⟨2, "bea", "BRL", 80, 5⟩,
        ⟨1, 1, -30, 7⟩, ⟨2, 2, 30, 7⟩⟩ : TransferTxResult).toAccount.balance = bt.balance + 30 ∧
      (⟨⟨1, 1, 2, 30, 7⟩, ⟨1, "ana", "BRL", 70, 5⟩, ⟨2, "bea", "BRL", 80, 5⟩,
        ⟨1, 1, -30, 7⟩, ⟨2, 2, 30, 7⟩⟩ : TransferTxResult).transfer.amount = 30 :=
  transferTx_balance_arithmetic exDB 1 2 30
    ⟨⟨1, 1, 2, 30, 7⟩, ⟨1, "ana", "BRL", 70, 5⟩, ⟨2, "bea", "BRL", 80, 5⟩,
      ⟨1, 1, -30, 7⟩, ⟨2, 2, 30, 7⟩⟩
    exDB_wf (by decide) (by decide) (by rfl)

/-- C3: whenever any store step inside `TransferTx` fails, the whole unit is
rolled back — the persisted database is unchanged — and in particular a
locking read of a nonexistent from-account makes `TransferTx` return
NotFound with the database unchanged. -/
theorem transferTx_failure_rolls_back (db : DB) (arg : TransferTxParams) :
    (∀ e, (TransferTx db arg).res = .error e → (TransferTx db arg).db = db) ∧
    (db.accounts arg.fromAccountId = none →
      (TransferTx db arg).res = .error .notFound ∧ (TransferTx db arg).db = db) := by
  constructor
  · intro e h
    exact execTx_error_db db (transferTxBody arg) e h
  · intro hnone
    have hres : (TransferTx db arg).res = .error .notFound := by
      simp [TransferTx, execTx, transferTxBody, CreateTransfer, CreateEntry,
        GetAccountForUpdate, UpdateAccount, DB.getAccount, hnone]
    exact ⟨hres, execTx_error_db db (transferTxBody arg) .notFound hres⟩

/-- Witness for C3: transferring from the nonexistent account 9 fails with
NotFound and leaves the example database unchanged. -/
theorem transferTx_failure_rolls_back_witness :
    exDB.accounts 9 = none ∧
    ((TransferTx exDB ⟨9, 1, 10⟩).res = .error .notFound ∧
      (TransferTx exDB ⟨9, 1, 10⟩).db = exDB) :=
  ⟨by decide, (transferTx_failure_rolls_back exDB ⟨9, 1, 10⟩).2 (by decide)⟩

/-- C4: a successful transfer performs, in order: the transfer insert, the
debit entry for the from-account with `-amount`, the credit entry for the
to-account with `+amount`, then the locking read and balance update of each
account, each new balance computed from the balance observed under that
locking read (for a self-transfer the second locked balance is the
already-debited one, never the pre-lock value). -/
theorem transferTx_operation_order (db : DB) (f t a : Int) (r : TransferTxResult)
    (hwf : db.wf) (hok : (TransferTx db ⟨f, t, a⟩).res = .ok r) :
    ∃ bf bt, (TransferTx db ⟨f, t, a⟩).trace =
      [.createTransfer f t a, .createEntry f (-a), .createEntry t a,
       .getAccountForUpdate f, .updateAccount f (bf - a),
       .getAccountForUpdate t, .updateAccount t (bt + a)] ∧
      (db.accounts f).map Account.balance = some bf ∧
      (f ≠ t → (db.accounts t).map Account.balance = some bt) ∧
      (f = t → bt = bf - a) := by
  obtain ⟨af, hf, bt0, ht⟩ := transferTx_ok_inv hok
  by_cases hft : f = t
  · subst hft
    have hafid := hwf _ _ hf
    obtain ⟨-, -, -, -, htrace⟩ := transferTx_run_self hf hafid
    exact ⟨af.balance, af.balance - a, htrace, by rw [hf]; rfl,
      fun h => absurd rfl h, fun _ => rfl⟩
  · have hbtid := hwf _ _ ht
    obtain ⟨-, -, -, -, htrace⟩ := transferTx_run_ne hft hf ht hbtid
    exact ⟨af.balance, bt0.balance, htrace, by rw [hf]; rfl,
      fun _ => by rw [ht]; rfl, fun h => absurd h hft⟩

/-- Witness for C4: the concrete transfer of 30 from account 1 to account 2
produces exactly the specified operation sequence. -/
theorem transferTx_operation_order_witness :
    ∃ bf bt, (TransferTx exDB ⟨1, 2, 30⟩).trace =
      [.createTransfer 1 2 30, .createEntry 1 (-30), .createEntry 2 30,
       .getAccountForUpdate 1, .updateAccount 1 (bf - 30),
       .getAccountForUpdate 2, .updateAccount 2 (bt + 30)] ∧
      (exDB.accounts 1).map Account.balance = some bf ∧
      ((1 : Int) ≠ 2 → (exDB.accounts 2).map Account.balance = some bt) ∧
      ((1 : Int) = 2 → bt = bf - 30) :=
  transferTx_operation_order exDB 1 2 30
    ⟨⟨1, 1, 2, 30, 7⟩, ⟨1, "ana", "BRL", 70, 5⟩, ⟨2, "bea", "BRL", 80, 5⟩,
      ⟨1, 1, -30, 7⟩, ⟨2, 2, 30, 7⟩⟩
    exDB_wf (by rfl)

/-- C5: when the unit-of-work callback fails, `execTx` attempts a rollback;
a failing rollback yields an error containing both the callback failure and
the rollback failure, and a successful rollback returns the callback failure
unchanged. -/
theorem execTx_rollback_error_both_surfaced (E A : Type) (hooks : TxHooks E)
    (callback : Unit → Except E A) (err : E)
    (hbegin : hooks.beginTx = none) (hcb : callback () = .error err) :
    (∀ rbErr, hooks.rollback = some rbErr →
      (execTxE hooks callback).1 = .error (.txAndRollback err rbErr)) ∧
    (hooks.rollback = none → (execTxE hooks callback).1 = .error (.plain err)) := by
  constructor
  · intro rbErr hrb
    simp [execTxE, hbegin, hcb, hrb]
  · intro hrb
    simp [execTxE, hbegin, hcb, hrb]

/-- Witness for C5 with callback failure 3 and rollback failure 4: the
combined error carries both. -/
theorem execTx_rollback_error_both_surfaced_witness :
    (∀ rbErr, (⟨none, some 4, none⟩ : TxHooks Nat).rollback = some rbErr →
      (execTxE (⟨none, some 4, none⟩ : TxHooks Nat)
        (fun _ => (.error 3 : Except Nat Unit))).1 = .error (.txAndRollback 3 rbErr)) ∧
    ((⟨none, some 4, none⟩ : TxHooks Nat).rollback = none →
      (execTxE (⟨none, some 4, none⟩ : TxHooks Nat)
        (fun _ => (.error 3 : Except Nat Unit))).1 = .error (.plain 3)) :=
  execTx_rollback_error_both_surfaced Nat Unit ⟨none, some 4, none⟩
    (fun _ => .error 3) 3 rfl rfl

/-- C6: once the unit is begun, `execTx` records exactly one begin, invokes
the callback exactly once and closes the unit exactly once (one rollback or
one commit); a successful callback leads to a commit whose own failure, if
any, is the overall result. -/
theorem execTx_single_unit (E A : Type) (hooks : TxHooks E)
    (callback : Unit → Except E A) (hbegin : hooks.beginTx = none) :
    (execTxE hooks callback).2.count .beganTx = 1 ∧
    (execTxE hooks callback).2.count .invokedCallback = 1 ∧
    (execTxE hooks callback).2.count .rolledBack +
      (execTxE hooks callback).2.count .committed = 1 ∧
    (∀ a, callback () = .ok a →
      (execTxE hooks callback).2.count .committed = 1 ∧
      (∀ ce, hooks.commit = some ce → (execTxE hooks callback).1 = .error (.plain ce)) ∧
      (hooks.commit = none → (execTxE hooks callback).1 = .ok a)) := by
  have hev : (execTxE hooks callback).2 = [.beganTx, .invokedCallback, .rolledBack] ∨
      (execTxE hooks callback).2 = [.beganTx, .invokedCallback, .committed] := by
    rcases hcb : callback () with err | a
    · rcases hrb : hooks.rollback with _ | rb <;> left <;> simp [execTxE, hbegin, hcb, hrb]
    · rcases hcm : hooks.commit with _ | ce <;> right <;> simp [execTxE, hbegin, hcb, hcm]
  refine ⟨?_, ?_, ?_, ?_⟩
  · rcases hev with h | h <;> rw [h] <;> decide
  · rcases hev with h | h <;> rw [h] <;> decide
  · rcases hev with h | h <;> rw [h] <;> decide
  · intro a ha
    rcases hcm : hooks.commit with _ | ce
    · refine ⟨?_, ?_, ?_⟩
      · have h2 : (execTxE hooks callback).2 = [.beganTx, .invokedCallback, .committed] := by
          simp [execTxE, hbegin, ha, hcm]
        rw [h2]
        decide
      · intro ce hce
        exact Option.noConfusion hce
      · intro _
        simp [execTxE, hbegin, ha, hcm]
    · refine ⟨?_, ?_, ?_⟩
      · have h2 : (execTxE hooks callback).2 = [.beganTx, .invokedCallback, .committed] := by
          simp [execTxE, hbegin, ha, hcm]
        rw [h2]
        decide
      · intro ce' hce
        injection hce with h3
        subst h3
        simp [execTxE, hbegin, ha, hcm]
      · intro hc
        exact Option.noConfusion hc

/-- Witness for C6 with a succeeding callback and a succeeding commit. -/
theorem execTx_single_unit_witness :
    (execTxE (⟨none, none, none⟩ : TxHooks Nat)
      (fun _ => (.ok 0 : Except Nat Nat))).2.count .beganTx = 1 ∧
    (execTxE (⟨none, none, none⟩ : TxHooks Nat)
      (fun _ => (.ok 0 : Except Nat Nat))).2.count .invokedCallback = 1 ∧
    (execTxE (⟨none, none, none⟩ : TxHooks Nat)
      (fun _ => (.ok 0 : Except Nat Nat))).2.count .rolledBack +
      (execTxE (⟨none, none, none⟩ : TxHooks Nat)
        (fun _ => (.ok 0 : Except Nat Nat))).2.count .committed = 1 ∧
    (∀ a, (fun _ => (.ok 0 : Except Nat Nat)) () = .ok a →
      (execTxE (⟨none, none, none⟩ : TxHooks Nat)
        (fun _ => (.ok 0 : Except Nat Nat))).2.count .committed = 1 ∧
      (∀ ce, (⟨none, none, none⟩ : TxHooks Nat).commit = some ce →
        (execTxE (⟨none, none, none⟩ : TxHooks Nat)
          (fun _ => (.ok 0 : Except Nat Nat))).1 = .error (.plain ce)) ∧
      ((⟨none, none, none⟩ : TxHooks Nat).commit = none →
        (execTxE (⟨none, none, none⟩ : TxHooks Nat)
          (fun _ => (.ok 0 : Except Nat Nat))).1 = .ok a)) :=
  execTx_single_unit Nat Nat ⟨none, none, none⟩ (fun _ => .ok 0) rfl

/-- C7: when the two referenced accounts exist but carry different
currencies, the handler rejects the request (status 422 when the request
binds, 400 otherwise) before `TransferTx` is ever invoked, and the store
state — hence the transfer and entry tables — is unchanged. -/
theorem createTransfer_currency_mismatch_rejected (db : DB)
    (req : CreateTransferRequest) (af bt : Account)
    (hf : db.accounts req.fromAccountId = some af)
    (ht : db.accounts req.toAccountId = some bt)
    (hcur : af.currency ≠ bt.currency) :
    (createTransfer realAPIStore db req).calledTransferTx = false ∧
    (createTransfer realAPIStore db req).state = db ∧
    (createTransfer realAPIStore db req).response.isSome = true ∧
    (createTransfer realAPIStore db req).response ≠ some 201 ∧
    (validTransferRequest req = true →
      (createTransfer realAPIStore db req).response = some 422) := by
  by_cases hv : validTransferRequest req = true
  · by_cases hfc : af.currency = req.currency
    · have hbc : bt.currency ≠ req.currency := fun h => hcur (hfc.trans h.symm)
      have hrun : createTransfer realAPIStore db req = ⟨some 422, db, false⟩ := by
        simp [createTransfer, hv, validateAccountTransfer, realAPIStore,
          DB.getAccount, hf, ht, hfc, hbc]
      rw [hrun]
      exact ⟨rfl, rfl, rfl, by simp, fun _ => rfl⟩
    · have hrun : createTransfer realAPIStore db req = ⟨some 422, db, false⟩ := by
        simp [createTransfer, hv, validateAccountTransfer, realAPIStore,
          DB.getAccount, hf, hfc]
      rw [hrun]
      exact ⟨rfl, rfl, rfl, by simp, fun _ => rfl⟩
  · have hv' : validTransferRequest req = false := by
      revert hv
      cases validTransferRequest req <;> simp
    have hrun : createTransfer realAPIStore db req = ⟨some 400, db, false⟩ := by
      simp [createTransfer, hv']
    rw [hrun]
    exact ⟨rfl, rfl, rfl, by simp, fun h => absurd h hv⟩

/-- A third concrete account, in USD, for the currency-mismatch scenario. -/
def exAccount3 : Account := ⟨3, "cai", "USD", 40, 5⟩

/-- A concrete database whose accounts 1 (BRL) and 3 (USD) have different
currencies. -/
def exDBmix : DB where
  accounts := fun i => if i = 1 then some exAccount1 else if i = 3 then some exAccount3 else none
  entries := []
  transfers := []
  nextEntryId := 1
  nextTransferId := 1
  clock := 7

/-- Witness for C7: a transfer request between the BRL account 1 and the USD
account 3 is rejected with 422 and `TransferTx` is never invoked. -/
theorem createTransfer_currency_mismatch_rejected_witness :
    (createTransfer realAPIStore exDBmix ⟨1, 3, 10, "BRL"⟩).calledTransferTx = false ∧
    (createTransfer realAPIStore exDBmix ⟨1, 3, 10, "BRL"⟩).state = exDBmix ∧
    (createTransfer realAPIStore exDBmix ⟨1, 3, 10, "BRL"⟩).response.isSome = true ∧
    (createTransfer realAPIStore exDBmix ⟨1, 3, 10, "BRL"⟩).response ≠ some 201 ∧
    (validTransferRequest ⟨1, 3, 10, "BRL"⟩ = true →
      (createTransfer realAPIStore exDBmix ⟨1, 3, 10, "BRL"⟩).response = some 422) :=
  createTransfer_currency_mismatch_rejected exDBmix ⟨1, 3, 10, "BRL"⟩
    exAccount1 exAccount3 (by decide) (by decide) (by decide)

/-- The scripted store of the repo's own handler test: both account reads
succeed with matching currencies, and `TransferTx` fails with a generic
storage error (`sql.ErrTxDone` in the test). -/
def mockErrStore : APIStore Unit where
  getAccount := fun _ id =>
    if id = 1 then .ok exAccount1 else if id = 2 then .ok exAccount2 else .error .notFound
  transferTx := fun _ _ => (.error .other, ())

/-- A scripted store whose `TransferTx` fails with NotFound
(`sql.ErrNoRows`). -/
def mockNoRowsStore : APIStore Unit where
  getAccount := fun _ id =>
    if id = 1 then .ok exAccount1 else if id = 2 then .ok exAccount2 else .error .notFound
  transferTx := fun _ _ => (.error .notFound, ())

/-- C8: the handler is supposed to map a NotFound failure of `TransferTx` to
a 404 response and any other failure to a 500 response; the code instead
returns from both error branches without writing any response: on a valid
request whose `TransferTx` fails — with a generic error or with NotFound —
the handler reaches `TransferTx` yet produces no response at all. -/
theorem createTransfer_failure_writes_no_response :
    (createTransfer mockErrStore () ⟨1, 2, 30, "BRL"⟩).calledTransferTx = true ∧
    (createTransfer mockErrStore () ⟨1, 2, 30, "BRL"⟩).response = none ∧
    (createTransfer mockNoRowsStore () ⟨1, 2, 30, "BRL"⟩).calledTransferTx = true ∧
    (createTransfer mockNoRowsStore () ⟨1, 2, 30, "BRL"⟩).response = none :=
  ⟨rfl, rfl, rfl, rfl⟩

/-- C9: a successful self-transfer leaves the account's persisted balance at
its initial value — the credit update reads the balance already debited
within the same unit — while still appending one transfer row and two entry
rows of amounts `-amount` and `+amount`, both referencing the account. -/
theorem transferTx_self_transfer (db : DB) (a m : Int) (r : TransferTxResult)
    (hwf : db.wf) (hok : (TransferTx db ⟨a, a, m⟩).res = .ok r) :
    ∃ acc, db.accounts a = some acc ∧
      ((TransferTx db ⟨a, a, m⟩).db.accounts a).map Account.balance = some acc.balance ∧
      (TransferTx db ⟨a, a, m⟩).db.transfers =
        db.transfers ++ [⟨db.nextTransferId, a, a, m, db.clock⟩] ∧
      (TransferTx db ⟨a, a, m⟩).db.entries =
        db.entries ++ [⟨db.nextEntryId, a, -m, db.clock⟩, ⟨db.nextEntryId + 1, a, m, db.clock⟩] ∧
      r.fromEntry.accountId = a ∧ r.fromEntry.amount = -m ∧
      r.toEntry.accountId = a ∧ r.toEntry.amount = m := by
  obtain ⟨af, hf, -⟩ := transferTx_ok_inv hok
  have hafid := hwf _ _ hf
  obtain ⟨hres, hacc, hent, htr, -⟩ := transferTx_run_self hf hafid
  rw [hok] at hres
  injection hres with hr
  subst hr
  refine ⟨af, hf, ?_, htr, hent, rfl, rfl, rfl, rfl⟩
  rw [hacc a]
  simp

/-- Witness for C9: a self-transfer of 25 on account 1 (balance 100) leaves
the persisted balance at 100 and appends the -25/+25 entries. -/
theorem transferTx_self_transfer_witness :
    ∃ acc, exDB.accounts 1 = some acc ∧
      ((TransferTx exDB ⟨1, 1, 25⟩).db.accounts 1).map Account.balance = some acc.balance ∧
      (TransferTx exDB ⟨1, 1, 25⟩).db.transfers =
        exDB.transfers ++ [⟨exDB.nextTransferId, 1, 1, 25, exDB.clock⟩] ∧
      (TransferTx exDB ⟨1, 1, 25⟩).db.entries =
        exDB.entries ++
          [⟨exDB.nextEntryId, 1, -25, exDB.clock⟩, ⟨exDB.nextEntryId + 1, 1, 25, exDB.clock⟩] ∧
      (⟨⟨1, 1, 1, 25, 7⟩, ⟨1, "ana", "BRL", 75, 5⟩, ⟨1, "ana", "BRL", 100, 5⟩,
        ⟨1, 1, -25, 7⟩, ⟨2, 1, 25, 7⟩⟩ : TransferTxResult).fromEntry.accountId = 1 ∧
      (⟨⟨1, 1, 1, 25, 7⟩, ⟨1, "ana", "BRL", 75, 5⟩, ⟨1, "ana", "BRL", 100, 5⟩,
        ⟨1, 1, -25, 7⟩, ⟨2, 1, 25, 7⟩⟩ : TransferTxResult).fromEntry.amount = -25 ∧
      (⟨⟨1, 1, 1, 25, 7⟩, ⟨1, "ana", "BRL", 75, 5⟩, ⟨1, "ana", "BRL", 100, 5⟩,
        ⟨1, 1, -25, 7⟩, ⟨2, 1, 25, 7⟩⟩ : TransferTxResult).toEntry.accountId = 1 ∧
      (⟨⟨1, 1, 1, 25, 7⟩, ⟨1, "ana", "BRL", 75, 5⟩, ⟨1, "ana", "BRL", 100, 5⟩,
        ⟨1, 1, -25, 7⟩, ⟨2, 1, 25, 7⟩⟩ : TransferTxResult).toEntry.amount = 25 :=
  transferTx_self_transfer exDB 1 25
    ⟨⟨1, 1, 1, 25, 7⟩, ⟨1, "ana", "BRL", 75, 5⟩, ⟨1, "ana", "BRL", 100, 5⟩,
      ⟨1, 1, -25, 7⟩, ⟨2, 1, 25, 7⟩⟩
    exDB_wf (by rfl)

/-- C10: a successful `TransferTx` mutates only the balances of the two
named accounts: every other account row is entirely unchanged, and any
account row that survives keeps its owner, currency and creation
timestamp. -/
theorem transferTx_frame (db : DB) (arg : TransferTxParams) (r : TransferTxResult)
    (hwf : db.wf) (hok : (TransferTx db arg).res = .ok r) :
    (∀ i, i ≠ arg.fromAccountId → i ≠ arg.toAccountId →
      (TransferTx db arg).db.accounts i = db.accounts i) ∧
    (∀ i acc acc', db.accounts i = some acc →
      (TransferTx db arg).db.accounts i = some acc' →
      acc'.owner = acc.owner ∧ acc'.currency = acc.currency ∧
        acc'.createdAt = acc.createdAt) := by
  rcases arg with ⟨f, t, a⟩
  obtain ⟨af, hf, bt, ht⟩ := transferTx_ok_inv hok
  by_cases hft : f = t
  · subst hft
    have hafid := hwf _ _ hf
    obtain ⟨-, hacc, -⟩ := transferTx_run_self hf hafid
    constructor
    · intro i hif _
      rw [hacc i, if_neg hif]
    · intro i acc acc' hacc0 hacc'
      rw [hacc i] at hacc'
      by_cases hif : i = f
      · subst hif
        rw [if_pos rfl] at hacc'
        rw [hf] at hacc0
        injection hacc0 with h0
        injection hacc' with h1
        rw [← h0, ← h1]
        exact ⟨rfl, rfl, rfl⟩
      · rw [if_neg hif, hacc0] at hacc'
        injection hacc' with h1
        rw [← h1]
        exact ⟨rfl, rfl, rfl⟩
  · have hbtid := hwf _ _ ht
    obtain ⟨-, hacc, -⟩ := transferTx_run_ne hft hf ht hbtid
    constructor
    · intro i hif hit
      rw [hacc i, if_neg hit, if_neg hif]
    · intro i acc acc' hacc0 hacc'
      rw [hacc i] at hacc'
      by_cases hit : i = t
      · subst hit
        rw [if_pos rfl] at hacc'
        rw [ht] at hacc0
        injection hacc0 with h0
        injection hacc' with h1
        rw [← h0, ← h1]
        exact ⟨rfl, rfl, rfl⟩
      · rw [if_neg hit] at hacc'
        by_cases hif : i = f
        · subst hif
          rw [if_pos rfl] at hacc'
          rw [hf] at hacc0
          injection hacc0 with h0
          injection hacc' with h1
          rw [← h0, ← h1]
          exact ⟨rfl, rfl, rfl⟩
        · rw [if_neg hif, hacc0] at hacc'
          injection hacc' with h1
          rw [← h1]
          exact ⟨rfl, rfl, rfl⟩

/-- Witness for C10 on the concrete transfer of 30 from account 1 to
account 2: account rows beyond 1 and 2 are untouched and every surviving row
keeps owner, currency and creation timestamp. -/
theorem transferTx_frame_witness :
    (∀ i, i ≠ (⟨1, 2, 30⟩ : TransferTxParams).fromAccountId →
      i ≠ (⟨1, 2, 30⟩ : TransferTxParams).toAccountId →
      (TransferTx exDB ⟨1, 2, 30⟩).db.accounts i = exDB.accounts i) ∧
    (∀ i acc acc', exDB.accounts i = some acc →
      (TransferTx exDB ⟨1, 2, 30⟩).db.accounts i = some acc' →
      acc'.owner = acc.owner ∧ acc'.currency = acc.currency ∧
        acc'.createdAt = acc.createdAt) :=
  transferTx_frame exDB ⟨1, 2, 30⟩
    ⟨⟨1, 1, 2, 30, 7⟩, ⟨1, "ana", "BRL", 70, 5⟩, ⟨2, "bea", "BRL", 80, 5⟩,
      ⟨1, 1, -30, 7⟩, ⟨2, 2, 30, 7⟩⟩
    exDB_wf (by rfl)

end SimpleBank
